import Mathlib

/-
Verification of the provider abstraction layer of the All-Model-Chat
repository (services/providers/openaiProvider.ts, anthropicProvider.ts,
customProvider.ts, services/providerRegistry.ts, services/api/modelApi.ts).

The TypeScript code is shallowly embedded:
  - the network interaction of a streaming call is modelled by an explicit
    FetchOutcome value (the fetch either throws, is aborted, returns a
    non-2xx response, returns a response without a body reader, or returns
    a body that yields a list of decoded text chunks followed by an
    ending: natural end of stream, a read error, or an abort during read);
  - the platform call JSON.parse together with the subsequent field
    extraction is modelled by an abstract parse oracle
    (String to Option Frame); a parse failure (exception thrown by
    JSON.parse) is the value none;
  - callback invocations (onPart / onComplete / onError) are recorded as an
    ordered trace of CbEvent values; a call that throws before entering its
    try block (missing API key) produces no trace at all, modelled by none.
-/

namespace AMC

/-- Truthiness of a JavaScript string-or-undefined value: undefined and the
empty string are falsy, every other string is truthy. -/
def optStrTruthy : Option String → Bool
  | none => false
  | some s => !(s == "")

/-- Normalized usage metadata as built by the OpenAI and Anthropic adapters
(all three fields are definite numbers there). -/
structure UsageMetadata where
  promptTokens : Nat
  completionTokens : Nat
  totalTokens : Nat
  deriving Repr, DecidableEq

/-- Usage metadata as built by the custom adapter, whose wire usage fields
are all optional (prompt_tokens?, completion_tokens?, total_tokens?). -/
structure CustomUsageMetadata where
  promptTokens : Option Nat
  completionTokens : Option Nat
  totalTokens : Option Nat
  deriving Repr, DecidableEq

/-- Classification of the error value that reaches the shared catch block of
a streaming adapter call. -/
inductive ErrKind where
  | netError
  | abortError
  | httpError (status : Nat)
  | noBody
  deriving Repr, DecidableEq

/-- One recorded callback invocation of a streaming call, in invocation
order. The usage payload type varies per adapter. -/
inductive CbEvent (υ : Type) where
  | part (text : String)
  | complete (usage : Option υ)
  | error (e : ErrKind)
  deriving Repr, DecidableEq

/-- Number of onComplete invocations in a trace. -/
def completeCount {υ : Type} (evs : List (CbEvent υ)) : Nat :=
  evs.countP (fun e => match e with | CbEvent.complete _ => true | _ => false)

/-- Number of onError invocations in a trace. -/
def errorCount {υ : Type} (evs : List (CbEvent υ)) : Nat :=
  evs.countP (fun e => match e with | CbEvent.error _ => true | _ => false)

/-- How the read loop of a streaming response body ends: natural completion
(done), a rejected read (network failure), or a rejected read caused by the
caller-supplied cancellation signal. -/
inductive StreamEnding where
  | done
  | readError
  | abortedRead
  deriving Repr, DecidableEq

/-- Outcome of the fetch call of a streaming request, seen from the adapter:
the fetch may reject (network error), reject because the cancellation signal
fired, resolve with a non-2xx status, resolve without a readable body, or
resolve with a body delivering the given decoded text chunks and ending. -/
inductive FetchOutcome where
  | netError
  | abortedFetch
  | httpError (status : Nat)
  | noBody
  | ok (chunks : List String) (ending : StreamEnding)
  deriving Repr, DecidableEq

/-- Whether an outcome involves the cancellation signal. -/
def nonAbortOutcome : FetchOutcome → Bool
  | FetchOutcome.abortedFetch => false
  | FetchOutcome.ok _ StreamEnding.abortedRead => false
  | _ => true

/-- Model of the JavaScript String.prototype.startsWith builtin, written on
the character list so that concrete instances evaluate inside the kernel. -/
def jsStartsWith (s pre : String) : Bool := pre.data.isPrefixOf s.data

/-- Model of the JavaScript String.prototype.slice builtin restricted to
dropping a character count from the front. -/
def jsDrop (s : String) (n : Nat) : String := String.mk (s.data.drop n)

/-- The newline character the stream loops split on. -/
def newlineChar : Char := Char.ofNat 10

def splitOnCharAux (c : Char) : List Char → List Char → List (List Char)
  | [], acc => [acc.reverse]
  | x :: xs, acc =>
    if x = c then acc.reverse :: splitOnCharAux c xs []
    else splitOnCharAux c xs (x :: acc)

/-- Model of the JavaScript String.prototype.split builtin for a
single-character separator (the only form the source uses). -/
def jsSplitOnChar (c : Char) (s : String) : List String :=
  (splitOnCharAux c s.data []).map String.mk

/-- JavaScript whitespace test covering the characters relevant here. -/
def jsWhite (ch : Char) : Bool :=
  ch == Char.ofNat 32 || ch == Char.ofNat 9 || ch == Char.ofNat 10 || ch == Char.ofNat 13

/-- Model of the JavaScript String.prototype.trim builtin. -/
def jsTrim (s : String) : String :=
  String.mk (((s.data.dropWhile jsWhite).reverse.dropWhile jsWhite).reverse)

/-- One step of the buffered line splitter shared by all three SSE read
loops: append the chunk to the carry-over buffer, split on newline, keep the
trailing partial line as the new buffer, and fold the completed lines. -/
def sseChunkStep {σ : Type} (pl : σ → String → σ) (st : String × σ) (chunk : String) :
    String × σ :=
  let buffer := st.1 ++ chunk
  let ls := jsSplitOnChar newlineChar buffer
  (ls.getLastD "", (ls.dropLast).foldl pl st.2)

/-- Fold a per-line processor over the chunks of a streaming body, with the
carry-over buffer semantics of the source read loops; the final partial
buffer is discarded, as in the source. -/
def sseFold {σ : Type} (pl : σ → String → σ) (init : σ) (chunks : List String) : σ :=
  (chunks.foldl (sseChunkStep pl) ("", init)).2

/-- The list of completed lines the read loop processes for a given chunk
sequence (the trailing partial line is never processed). -/
def sseLines (chunks : List String) : List String :=
  (chunks.foldl (sseChunkStep (fun a l => a ++ [l])) ("", [])).2

/-- Usage object of a parsed OpenAI streaming frame. -/
structure OpenAIUsage where
  prompt_tokens : Nat
  completion_tokens : Nat
  total_tokens : Nat
  deriving Repr, DecidableEq

/-- Result of JSON.parse plus field extraction on one OpenAI SSE data
payload: delta is choices[0].delta.content when that path exists, usage is
the usage object when present. -/
structure OpenAIFrame where
  delta : Option String
  usage : Option OpenAIUsage
  deriving Repr, DecidableEq

/-- Per-line step of the OpenAI streaming loop (openaiProvider.ts lines
151-177): only data-prefixed lines are considered, the DONE sentinel is
skipped, a parse failure is logged and skipped, a truthy delta content is
emitted as a part, and a present usage object overwrites the accumulator. -/
def openAIProcessLine (parse : String → Option OpenAIFrame)
    (st : Option UsageMetadata × List (CbEvent UsageMetadata)) (line : String) :
    Option UsageMetadata × List (CbEvent UsageMetadata) :=
  if jsStartsWith line "data: " then
    let data := jsDrop line 6
    if data == "[DONE]" then st
    else
      match parse data with
      | none => st
      | some parsed =>
        let st1 :=
          match parsed.delta with
          | some t => if t == "" then st else (st.1, st.2 ++ [CbEvent.part t])
          | none => st
        match parsed.usage with
        | some w =>
          (some ⟨w.prompt_tokens, w.completion_tokens, w.total_tokens⟩, st1.2)
        | none => st1
  else st

/-- The incremental text delta a single line contributes in the OpenAI loop,
if any. -/
def openAIDeltaOf (parse : String → Option OpenAIFrame) (line : String) : Option String :=
  if jsStartsWith line "data: " then
    let data := jsDrop line 6
    if data == "[DONE]" then none
    else
      match parse data with
      | none => none
      | some parsed =>
        match parsed.delta with
        | some t => if t == "" then none else some t
        | none => none
  else none

/-- Effect of a single line on the OpenAI usage accumulator. -/
def openAIUsageStep (parse : String → Option OpenAIFrame)
    (u : Option UsageMetadata) (line : String) : Option UsageMetadata :=
  if jsStartsWith line "data: " then
    let data := jsDrop line 6
    if data == "[DONE]" then u
    else
      match parse data with
      | none => u
      | some parsed =>
        match parsed.usage with
        | some w => some ⟨w.prompt_tokens, w.completion_tokens, w.total_tokens⟩
        | none => u
  else u

/-- The ordered text deltas delivered for a list of processed lines. -/
def openAIStreamDeltas (parse : String → Option OpenAIFrame) (lines : List String) :
    List String :=
  lines.filterMap (openAIDeltaOf parse)

/-- The final usage accumulator after processing a list of lines. -/
def openAIStreamUsage (parse : String → Option OpenAIFrame) (lines : List String) :
    Option UsageMetadata :=
  lines.foldl (openAIUsageStep parse) none

/-- The trailing callback of a streaming call whose fetch succeeded, by
stream ending: natural end fires onComplete with the accumulated usage; a
read failure or an abort during read reaches the catch block, which fires
onError. -/
def endingEvents {υ : Type} (usage : Option υ) : StreamEnding → List (CbEvent υ)
  | StreamEnding.done => [CbEvent.complete usage]
  | StreamEnding.readError => [CbEvent.error ErrKind.netError]
  | StreamEnding.abortedRead => [CbEvent.error ErrKind.abortError]

/-- Callback trace of OpenAIProvider.sendMessageStream (openaiProvider.ts
lines 89-188). A falsy API key throws before the try block, producing no
callbacks (none). Otherwise every fetch-level failure, including an abort,
reaches the single catch block and fires onError once; a successful fetch
processes the chunk lines and then fires onComplete once on natural end, or
onError once if a read rejects. -/
def openAISendMessageStream (apiKey : Option String) (parse : String → Option OpenAIFrame)
    (outcome : FetchOutcome) : Option (List (CbEvent UsageMetadata)) :=
  if !(optStrTruthy apiKey) then none
  else some (match outcome with
    | FetchOutcome.netError => [CbEvent.error ErrKind.netError]
    | FetchOutcome.abortedFetch => [CbEvent.error ErrKind.abortError]
    | FetchOutcome.httpError s => [CbEvent.error (ErrKind.httpError s)]
    | FetchOutcome.noBody => [CbEvent.error ErrKind.noBody]
    | FetchOutcome.ok chunks ending =>
      let st := sseFold (openAIProcessLine parse) (none, []) chunks
      st.2 ++ endingEvents st.1 ending)

/-- Result of JSON.parse plus field extraction on one Anthropic SSE data
payload: the event type string, delta.text when that path exists,
message.usage.input_tokens when message.usage is present, and
usage.output_tokens when a top-level usage object is present. -/
structure AnthropicFrame where
  type : String
  deltaText : Option String
  messageUsageInput : Option Nat
  usageOutput : Option Nat
  deriving Repr, DecidableEq

/-- Per-line step of the Anthropic streaming loop (anthropicProvider.ts
lines 178-203): data-prefixed lines are parsed (a failure is logged and
skipped); a content_block_delta with truthy delta text fires onPart; a
message_start carrying usage initializes the accumulator with the prompt
tokens; a message_delta carrying usage updates completion and total tokens
only when the accumulator was already initialized. -/
def anthropicProcessLine (parse : String → Option AnthropicFrame)
    (st : Option UsageMetadata × List (CbEvent UsageMetadata)) (line : String) :
    Option UsageMetadata × List (CbEvent UsageMetadata) :=
  if jsStartsWith line "data: " then
    match parse (jsDrop line 6) with
    | none => st
    | some parsed =>
      if parsed.type == "content_block_delta" && optStrTruthy parsed.deltaText then
        (st.1, st.2 ++ [CbEvent.part (parsed.deltaText.getD "")])
      else if parsed.type == "message_start" && parsed.messageUsageInput.isSome then
        (some ⟨parsed.messageUsageInput.getD 0, 0, parsed.messageUsageInput.getD 0⟩, st.2)
      else if parsed.type == "message_delta" && parsed.usageOutput.isSome then
        match st.1 with
        | some w =>
          (some ⟨w.promptTokens, parsed.usageOutput.getD 0,
                 w.promptTokens + parsed.usageOutput.getD 0⟩, st.2)
        | none => st
      else st
  else st

/-- The incremental text delta a single line contributes in the Anthropic
loop, if any. -/
def anthropicDeltaOf (parse : String → Option AnthropicFrame) (line : String) :
    Option String :=
  if jsStartsWith line "data: " then
    match parse (jsDrop line 6) with
    | none => none
    | some parsed =>
      if parsed.type == "content_block_delta" && optStrTruthy parsed.deltaText then
        some (parsed.deltaText.getD "")
      else none
  else none

/-- Effect of a single line on the Anthropic usage accumulator. -/
def anthropicUsageStep (parse : String → Option AnthropicFrame)
    (u : Option UsageMetadata) (line : String) : Option UsageMetadata :=
  if jsStartsWith line "data: " then
    match parse (jsDrop line 6) with
    | none => u
    | some parsed =>
      if parsed.type == "content_block_delta" && optStrTruthy parsed.deltaText then u
      else if parsed.type == "message_start" && parsed.messageUsageInput.isSome then
        some ⟨parsed.messageUsageInput.getD 0, 0, parsed.messageUsageInput.getD 0⟩
      else if parsed.type == "message_delta" && parsed.usageOutput.isSome then
        match u with
        | some w =>
          some ⟨w.promptTokens, parsed.usageOutput.getD 0,
                w.promptTokens + parsed.usageOutput.getD 0⟩
        | none => u
      else u
  else u

/-- The ordered text deltas delivered for a list of processed lines. -/
def anthropicStreamDeltas (parse : String → Option AnthropicFrame) (lines : List String) :
    List String :=
  lines.filterMap (anthropicDeltaOf parse)

/-- The final usage accumulator after processing a list of lines. -/
def anthropicStreamUsage (parse : String → Option AnthropicFrame) (lines : List String) :
    Option UsageMetadata :=
  lines.foldl (anthropicUsageStep parse) none

/-- Callback trace of AnthropicProvider.sendMessageStream
(anthropicProvider.ts lines 110-214), with the same outer structure as the
OpenAI adapter. -/
def anthropicSendMessageStream (apiKey : Option String)
    (parse : String → Option AnthropicFrame) (outcome : FetchOutcome) :
    Option (List (CbEvent UsageMetadata)) :=
  if !(optStrTruthy apiKey) then none
  else some (match outcome with
    | FetchOutcome.netError => [CbEvent.error ErrKind.netError]
    | FetchOutcome.abortedFetch => [CbEvent.error ErrKind.abortError]
    | FetchOutcome.httpError s => [CbEvent.error (ErrKind.httpError s)]
    | FetchOutcome.noBody => [CbEvent.error ErrKind.noBody]
    | FetchOutcome.ok chunks ending =>
      let st := sseFold (anthropicProcessLine parse) (none, []) chunks
      st.2 ++ endingEvents st.1 ending)

/-- Usage object of a parsed custom-provider streaming frame; every wire
field is optional. -/
structure CustomUsage where
  prompt_tokens : Option Nat
  completion_tokens : Option Nat
  total_tokens : Option Nat
  deriving Repr, DecidableEq

/-- Result of JSON.parse plus field extraction on one custom-provider SSE
data payload. -/
structure CustomFrame where
  delta : Option String
  usage : Option CustomUsage
  deriving Repr, DecidableEq

/-- Per-line step of the custom-provider streaming loop (customProvider.ts),
identical in structure to the OpenAI loop. -/
def customProcessLine (parse : String → Option CustomFrame)
    (st : Option CustomUsageMetadata × List (CbEvent CustomUsageMetadata)) (line : String) :
    Option CustomUsageMetadata × List (CbEvent CustomUsageMetadata) :=
  if jsStartsWith line "data: " then
    let data := jsDrop line 6
    if data == "[DONE]" then st
    else
      match parse data with
      | none => st
      | some parsed =>
        let st1 :=
          match parsed.delta with
          | some t => if t == "" then st else (st.1, st.2 ++ [CbEvent.part t])
          | none => st
        match parsed.usage with
        | some w =>
          (some ⟨w.prompt_tokens, w.completion_tokens, w.total_tokens⟩, st1.2)
        | none => st1
  else st

/-- The incremental text delta a single line contributes in the custom
loop, if any. -/
def customDeltaOf (parse : String → Option CustomFrame) (line : String) : Option String :=
  if jsStartsWith line "data: " then
    let data := jsDrop line 6
    if data == "[DONE]" then none
    else
      match parse data with
      | none => none
      | some parsed =>
        match parsed.delta with
        | some t => if t == "" then none else some t
        | none => none
  else none

/-- Effect of a single line on the custom-provider usage accumulator. -/
def customUsageStep (parse : String → Option CustomFrame)
    (u : Option CustomUsageMetadata) (line : String) : Option CustomUsageMetadata :=
  if jsStartsWith line "data: " then
    let data := jsDrop line 6
    if data == "[DONE]" then u
    else
      match parse data with
      | none => u
      | some parsed =>
        match parsed.usage with
        | some w => some ⟨w.prompt_tokens, w.completion_tokens, w.total_tokens⟩
        | none => u
  else u

/-- The ordered text deltas delivered for a list of processed lines. -/
def customStreamDeltas (parse : String → Option CustomFrame) (lines : List String) :
    List String :=
  lines.filterMap (customDeltaOf parse)

/-- The final usage accumulator after processing a list of lines. -/
def customStreamUsage (parse : String → Option CustomFrame) (lines : List String) :
    Option CustomUsageMetadata :=
  lines.foldl (customUsageStep parse) none

/-- Callback trace of CustomProvider.sendMessageStream (customProvider.ts
lines 135-238), with the same outer structure as the OpenAI adapter. -/
def customSendMessageStream (apiKey : Option String) (parse : String → Option CustomFrame)
    (outcome : FetchOutcome) : Option (List (CbEvent CustomUsageMetadata)) :=
  if !(optStrTruthy apiKey) then none
  else some (match outcome with
    | FetchOutcome.netError => [CbEvent.error ErrKind.netError]
    | FetchOutcome.abortedFetch => [CbEvent.error ErrKind.abortError]
    | FetchOutcome.httpError s => [CbEvent.error (ErrKind.httpError s)]
    | FetchOutcome.noBody => [CbEvent.error ErrKind.noBody]
    | FetchOutcome.ok chunks ending =>
      let st := sseFold (customProcessLine parse) (none, []) chunks
      st.2 ++ endingEvents st.1 ending)

/-- Inline binary payload of a message part. -/
structure InlineData where
  mimeType : String
  data : String
  deriving Repr, DecidableEq

/-- One message part of the unified history format: a text part or an
inline-binary part (both fields optional on the wire type). -/
structure HistPart where
  text : Option String
  inlineData : Option InlineData
  deriving Repr, DecidableEq

/-- One item of the unified chat history. -/
structure ChatHistoryItem where
  role : String
  parts : List HistPart
  deriving Repr, DecidableEq

/-- One entry of an array-valued OpenAI-format content field. -/
inductive OAContentItem where
  | text (t : String)
  | imageUrl (url : String)
  deriving Repr, DecidableEq

/-- OpenAI-format message content: either a bare string or an array of
typed entries. -/
inductive OAContent where
  | str (s : String)
  | arr (items : List OAContentItem)
  deriving Repr, DecidableEq

/-- One OpenAI-format wire message. -/
structure OAMessage where
  role : String
  content : OAContent
  deriving Repr, DecidableEq

/-- Entry a single history part contributes to an OpenAI-format content
array (openaiProvider.ts lines 272-286): a truthy text field becomes a text
entry; otherwise a present inlineData field becomes an image_url entry
carrying a base64 data URL; a part with neither contributes nothing. -/
def openAIContentItemOf (p : HistPart) : Option OAContentItem :=
  if optStrTruthy p.text then some (OAContentItem.text (p.text.getD ""))
  else
    match p.inlineData with
    | some d => some (OAContentItem.imageUrl ("data:" ++ d.mimeType ++ ";base64," ++ d.data))
    | none => none

/-- Conversion of one history item by OpenAIProvider.convertHistoryToOpenAI
(openaiProvider.ts lines 266-294): the model role maps to assistant, any
other role to user; a content array consisting of exactly one text entry
degrades to a bare string content field. -/
def convertOpenAIItem (item : ChatHistoryItem) : OAMessage :=
  let role := if item.role == "model" then "assistant" else "user"
  let contentParts := item.parts.filterMap openAIContentItemOf
  match contentParts with
  | [OAContentItem.text t] => ⟨role, OAContent.str t⟩
  | l => ⟨role, OAContent.arr l⟩

/-- OpenAIProvider.convertHistoryToOpenAI (openaiProvider.ts lines 254-297):
a system message is prepended only when the trimmed system instruction is
nonempty, then every history item is converted in order. -/
def convertHistoryToOpenAI (history : List ChatHistoryItem) (systemInstruction : String) :
    List OAMessage :=
  (if jsTrim systemInstruction ≠ "" then [(⟨"system", OAContent.str systemInstruction⟩ : OAMessage)]
   else [])
    ++ history.map convertOpenAIItem

/-- Entry a single history part contributes to a custom-provider content
array (customProvider.ts lines 326-340); textually identical to the OpenAI
version. -/
def customContentItemOf (p : HistPart) : Option OAContentItem :=
  if optStrTruthy p.text then some (OAContentItem.text (p.text.getD ""))
  else
    match p.inlineData with
    | some d => some (OAContentItem.imageUrl ("data:" ++ d.mimeType ++ ";base64," ++ d.data))
    | none => none

/-- Conversion of one history item by
CustomProvider.convertHistoryToOpenAIFormat (customProvider.ts lines
320-347). -/
def convertCustomItem (item : ChatHistoryItem) : OAMessage :=
  let role := if item.role == "model" then "assistant" else "user"
  let contentParts := item.parts.filterMap customContentItemOf
  match contentParts with
  | [OAContentItem.text t] => ⟨role, OAContent.str t⟩
  | l => ⟨role, OAContent.arr l⟩

/-- CustomProvider.convertHistoryToOpenAIFormat (customProvider.ts lines
308-351). -/
def convertHistoryToOpenAIFormat (history : List ChatHistoryItem) (systemInstruction : String) :
    List OAMessage :=
  (if jsTrim systemInstruction ≠ "" then [(⟨"system", OAContent.str systemInstruction⟩ : OAMessage)]
   else [])
    ++ history.map convertCustomItem

/-- Unified model descriptor as produced by listing calls; optional fields
are absent in some producers (fallback lists carry only the first four). -/
structure ModelOption where
  id : String
  name : String
  providerId : String
  providerName : String
  displayName : Option String
  supportsImages : Option Bool
  supportsStreaming : Option Bool
  supportsSystemMessages : Option Bool
  maxTokens : Option Nat
  isPinned : Option Bool
  deriving Repr, DecidableEq

/-- Provider instance configuration. -/
structure ProviderConfig where
  id : String
  name : String
  enabled : Bool
  apiKey : Option String
  baseUrl : Option String
  customHeaders : List (String × String)
  deriving Repr, DecidableEq

/-- Model of String.prototype.localeCompare at code-point level: negative,
zero or positive according to the lexicographic comparison of the two
strings. -/
def localeCompare (a b : String) : Int :=
  if a < b then -1 else if b < a then 1 else 0

/-- The comparator passed to the final sort of
ProviderRegistryImpl.getAllAvailableModels (providerRegistry.ts lines
231-236): provider display name first, then model display name. -/
def modelCompare (a b : ModelOption) : Int :=
  if localeCompare a.providerName b.providerName ≠ 0 then
    localeCompare a.providerName b.providerName
  else localeCompare a.name b.name

/-- Boolean ordering induced by the registry comparator. -/
def modelCompareLe (a b : ModelOption) : Bool :=
  decide (modelCompare a b ≤ 0)

/-- Provider ids registered by the ProviderRegistryImpl constructor (the
three built-in adapters; the generic custom adapter is not registered). -/
def builtinRegistry : List String := ["gemini", "openai", "anthropic"]

/-- ProviderRegistryImpl.registerCustomProvider (providerRegistry.ts lines
179-188), acting on the set of registered provider ids: a config whose id is
not the generic custom sentinel and is not yet registered gets a fresh
adapter registered under its own id. -/
def registerCustomProvider (reg : List String) (c : ProviderConfig) : List String :=
  if c.id ≠ "custom" && !(reg.contains c.id) then reg ++ [c.id] else reg

/-- The registration loop at the top of getAllAvailableModels
(providerRegistry.ts lines 194-198). -/
def registerAllCustom (reg : List String) (configs : List ProviderConfig) : List String :=
  configs.foldl (fun r c => if !(r.contains c.id) then registerCustomProvider r c else r) reg

/-- FALLBACK_MODELS from constants/providerConstants.ts: the static
per-provider fallback lists keyed by provider id. -/
def fallbackModels (providerId : String) : Option (List ModelOption) :=
  if providerId == "gemini" then some
    [⟨"gemini-2.5-flash", "Gemini 2.5 Flash", "gemini", "Google Gemini",
      none, none, none, none, none, none⟩,
     ⟨"gemini-2.5-pro", "Gemini 2.5 Pro", "gemini", "Google Gemini",
      none, none, none, none, none, none⟩,
     ⟨"gemini-2.5-flash-lite", "Gemini 2.5 Flash Lite", "gemini", "Google Gemini",
      none, none, none, none, none, none⟩]
  else if providerId == "openai" then some
    [⟨"gpt-4o", "GPT-4o", "openai", "OpenAI", none, none, none, none, none, none⟩,
     ⟨"gpt-4o-mini", "GPT-4o Mini", "openai", "OpenAI", none, none, none, none, none, none⟩,
     ⟨"gpt-4", "GPT-4", "openai", "OpenAI", none, none, none, none, none, none⟩,
     ⟨"gpt-3.5-turbo", "GPT-3.5 Turbo", "openai", "OpenAI", none, none, none, none, none, none⟩]
  else if providerId == "anthropic" then some
    [⟨"claude-3-5-sonnet-20241022", "Claude 3.5 Sonnet", "anthropic", "Anthropic Claude",
      none, none, none, none, none, none⟩,
     ⟨"claude-3-5-haiku-20241022", "Claude 3.5 Haiku", "anthropic", "Anthropic Claude",
      none, none, none, none, none, none⟩,
     ⟨"claude-3-opus-20240229", "Claude 3 Opus", "anthropic", "Anthropic Claude",
      none, none, none, none, none, none⟩]
  else none

/-- Aggregation loop of ProviderRegistryImpl.getAllAvailableModels
(providerRegistry.ts lines 190-229) before the final sort. The per-provider
network listing is abstracted as the oracle listing; reg is the set of
provider ids registered before the call. A disabled config contributes
nothing; a config without a registered adapter, or whose listing throws,
contributes its static fallback list when one exists. -/
def aggregateModels (reg : List String)
    (listing : ProviderConfig → Except Unit (List ModelOption))
    (configs : List ProviderConfig) : List ModelOption :=
  let reg2 := registerAllCustom reg configs
  configs.foldl (fun acc c =>
    if !c.enabled then acc
    else if reg2.contains c.id then
      match listing c with
      | Except.ok ms => acc ++ ms
      | Except.error _ => acc ++ (fallbackModels c.id).getD []
    else acc ++ (fallbackModels c.id).getD []) []

/-- ProviderRegistryImpl.getAllAvailableModels (providerRegistry.ts lines
190-237): the aggregation followed by the ascending sort by provider display
name and then model display name. -/
def getAllAvailableModels (reg : List String)
    (listing : ProviderConfig → Except Unit (List ModelOption))
    (configs : List ProviderConfig) : List ModelOption :=
  (aggregateModels reg listing configs).mergeSort modelCompareLe

/-- ProviderRegistryImpl.isModelFromProvider (providerRegistry.ts lines
266-276): the fixed per-provider model-id patterns; an id with no pattern
entry never matches. -/
def isModelFromProvider (modelId providerId : String) : Bool :=
  if providerId == "gemini" then
    jsStartsWith modelId "gemini" || jsStartsWith modelId "models/gemini"
  else if providerId == "openai" then
    jsStartsWith modelId "gpt-" || jsStartsWith modelId "text-" ||
    jsStartsWith modelId "davinci" || jsStartsWith modelId "curie" ||
    jsStartsWith modelId "babbage" || jsStartsWith modelId "ada"
  else if providerId == "anthropic" then
    jsStartsWith modelId "claude"
  else false

/-- ProviderRegistryImpl.getProviderForModel (providerRegistry.ts lines
239-264): first pass returns the first enabled config with a registered
adapter whose pattern matches the model id; the fallback pass returns the
first enabled config with a registered adapter in list order; the adapter is
identified by its provider id. -/
def getProviderForModel (reg : List String) (modelId : String)
    (configs : List ProviderConfig) : Option (String × ProviderConfig) :=
  match configs.find? (fun c =>
      c.enabled && reg.contains c.id && isModelFromProvider modelId c.id) with
  | some c => some (c.id, c)
  | none =>
    match configs.find? (fun c => c.enabled && reg.contains c.id) with
    | some c => some (c.id, c)
    | none => none

/-- Truthy JavaScript or-chain on string-or-undefined values. -/
def jsOr (a b : Option String) : Option String :=
  match a with
  | some s => if s == "" then b else some s
  | none => b

/-- One entry of the model-listing response of the Gemini proxy or SDK
path. -/
structure GeminiModelInfo where
  name : String
  displayName : Option String
  supportedActions : Option (List String)
  deriving Repr, DecidableEq

/-- Filter of the legacy Gemini listing (modelApi.ts lines 78-79 and
116-117): keep a model when it reports no action restriction or supports
content or image generation. -/
def geminiModelAllowed (m : GeminiModelInfo) : Bool :=
  match m.supportedActions with
  | none => true
  | some acts => acts.contains "generateContent" || acts.contains "generateImages"

/-- ModelOption built for one Gemini listing entry (modelApi.ts lines
80-86): the display name falls back to the last path segment of the model
name, then to the full name. -/
def geminiToModelOption (m : GeminiModelInfo) : ModelOption :=
  ⟨m.name,
   (jsOr m.displayName (jsOr (some ((jsSplitOnChar (Char.ofNat 47) m.name).getLastD "")) (some m.name))).getD "",
   "gemini", "Google Gemini", none, none, none, none, none, some false⟩

/-- Ascending sort by model display name with the localeCompare model. -/
def sortByName (l : List ModelOption) : List ModelOption :=
  l.mergeSort (fun a b => decide (localeCompare a.name b.name ≤ 0))

/-- Key-list parsing of the legacy listing path (modelApi.ts line 48). -/
def parseApiKeys (apiKeysString : Option String) : List String :=
  ((jsSplitOnChar newlineChar (apiKeysString.getD "")).map (fun k => jsTrim k)).filter (fun k => k ≠ "")

/-- The settings fields the legacy Gemini listing path reads. -/
structure LegacySettings where
  useCustomApiConfig : Bool
  apiProxyUrl : Option String
  deriving Repr, DecidableEq

/-- Error outcomes of the legacy Gemini listing path. -/
inductive LegacyError where
  | configError (msg : String)
  | proxyFailed (msg : String)
  | sdkFailed (msg : String)
  | emptyModelList
  deriving Repr, DecidableEq

/-- getLegacyGeminiModels (modelApi.ts lines 47-141). The two network
interactions are abstracted as oracles: proxyResult is the outcome of
proxyService.getModels (an exception, an invalid-format response modelled by
ok none, or a response carrying a models array), and sdkResult is the
outcome of listing through the vendor SDK. The Math.random key selection
only chooses which key is forwarded into those calls, so it does not appear
in the abstraction. With no usable key the call rejects with a config error.
With the custom config enabled and a truthy proxy URL, a proxy exception is
rethrown as a proxy failure without consulting the SDK; a proxy response
with an invalid format or an empty filtered list falls through to the SDK
path. The SDK path rethrows SDK errors, returns the filtered sorted list
when nonempty, and rejects on an empty list. -/
def getLegacyGeminiModels (apiKeysString : Option String) (settings : LegacySettings)
    (proxyResult : Except String (Option (List GeminiModelInfo)))
    (sdkResult : Except String (List GeminiModelInfo)) :
    Except LegacyError (List ModelOption) :=
  let keys := parseApiKeys apiKeysString
  if keys.length = 0 then
    Except.error (LegacyError.configError
      "API client not initialized. Configure API Key in settings.")
  else
    let proxyStep : Option (Except LegacyError (List ModelOption)) :=
      if settings.useCustomApiConfig && optStrTruthy settings.apiProxyUrl then
        match proxyResult with
        | Except.error msg => some (Except.error (LegacyError.proxyFailed msg))
        | Except.ok none => none
        | Except.ok (some models) =>
          let available := (models.filter geminiModelAllowed).map geminiToModelOption
          if available.length > 0 then some (Except.ok (sortByName available)) else none
      else none
    match proxyStep with
    | some r => r
    | none =>
      match sdkResult with
      | Except.error msg => Except.error (LegacyError.sdkFailed msg)
      | Except.ok models =>
        let available := (models.filter geminiModelAllowed).map geminiToModelOption
        if available.length > 0 then Except.ok (sortByName available)
        else Except.error LegacyError.emptyModelList

/-- One entry of a custom-provider models response, before normalization. -/
structure RawModel where
  id : Option String
  name : Option String
  model : Option String
  displayName : Option String
  max_tokens : Option Nat
  deriving Repr, DecidableEq

/-- The three response shapes the custom-provider model listing accepts
(customProvider.ts lines 71-83), plus the unrecognized case, which yields an
empty model list. -/
inductive ModelsJson where
  | openaiStyle (data : List RawModel)
  | bareArray (items : List RawModel)
  | geminiStyle (models : List RawModel)
  | unrecognized
  deriving Repr, DecidableEq

/-- Outcome of the custom-provider models fetch: the fetch throws, resolves
with a non-2xx response, or resolves 2xx with a parsed body. -/
inductive CustomListingOutcome where
  | fetchThrows
  | respNotOk
  | respOk (body : ModelsJson)
  deriving Repr, DecidableEq

/-- CustomProvider.formatModelName (customProvider.ts lines 353-359). -/
def customFormatModelName (s : String) : String :=
  String.intercalate " " ((jsSplitOnChar (Char.ofNat 45) s).map (fun w => (w.take 1).toUpper ++ w.drop 1))

/-- Truthy or-chain id of a raw custom model entry. -/
def customRawDisplay (m : RawModel) : String :=
  (jsOr m.displayName (jsOr m.id (jsOr m.name m.model))).getD ""

/-- ModelOption built for one raw custom model entry (customProvider.ts
lines 85-95); a falsy max_tokens falls back to 4096. -/
def customModelOption (config : ProviderConfig) (m : RawModel) : ModelOption :=
  ⟨(jsOr m.id (jsOr m.name m.model)).getD "",
   customFormatModelName (customRawDisplay m),
   config.id, config.name,
   some (customRawDisplay m),
   some true, some true, some true,
   some (match m.max_tokens with
         | some n => if n = 0 then 4096 else n
         | none => 4096),
   none⟩

/-- The single fallback entry the custom listing resolves with on failure
(customProvider.ts lines 100-131). -/
def defaultCustomModel (config : ProviderConfig) : ModelOption :=
  ⟨"default", "Default Model", config.id, config.name, some "Default Model",
   some true, some true, some true, some 4096, none⟩

/-- CustomProvider.getAvailableModels (customProvider.ts lines 47-133): a
falsy API key throws a config error; otherwise a 2xx response is normalized
from any of the three accepted shapes and sorted by display name, while a
thrown fetch or a non-2xx response resolves with the single default model
instead of rejecting. -/
def customGetAvailableModels (config : ProviderConfig) (outcome : CustomListingOutcome) :
    Except String (List ModelOption) :=
  if !(optStrTruthy config.apiKey) then
    Except.error "Custom provider API key not configured"
  else Except.ok (match outcome with
    | CustomListingOutcome.fetchThrows => [defaultCustomModel config]
    | CustomListingOutcome.respNotOk => [defaultCustomModel config]
    | CustomListingOutcome.respOk body =>
      let models := match body with
        | ModelsJson.openaiStyle data => data
        | ModelsJson.bareArray items => items
        | ModelsJson.geminiStyle ms => ms
        | ModelsJson.unrecognized => []
      sortByName (models.map (customModelOption config)))

/-- Concrete parse oracle standing for JSON.parse plus field extraction on a
three-frame Anthropic stream: a message_start with input_tokens 10, a
content_block_delta with text Hi, and a message_delta with output_tokens 3.
Every other payload fails to parse. -/
def anthScenarioParse : String → Option AnthropicFrame := fun s =>
  if s == "msgstart-in10" then some ⟨"message_start", none, some 10, none⟩
  else if s == "delta-Hi" then some ⟨"content_block_delta", some "Hi", none, none⟩
  else if s == "msgdelta-out3" then some ⟨"message_delta", none, none, some 3⟩
  else none

/-- The decoded byte chunk delivering the three Anthropic frames. -/
def anthScenarioChunk : String :=
  "data: msgstart-in10\ndata: delta-Hi\ndata: msgdelta-out3\n"

/-- Concrete parse oracle for an OpenAI-style stream: two recognized frames,
everything else (for example the payload garbage) fails to parse. -/
def oaiDemoParse : String → Option OpenAIFrame := fun s =>
  if s == "frame-hello" then some ⟨some "Hello", none⟩
  else if s == "frame-world-usage" then some ⟨some " world", some ⟨5, 7, 12⟩⟩
  else none

/-- A chunk whose middle data line carries a payload that fails to parse. -/
def oaiC3Chunk : String :=
  "data: frame-hello\ndata: garbage\ndata: frame-world-usage\ndata: [DONE]\n"

/-- Parse oracle that fails on every payload. -/
def noOpenAIFrameParse : String → Option OpenAIFrame := fun _ => none

/-- Enabled OpenAI provider configuration used in concrete instances. -/
def cfgOpenAIDemo : ProviderConfig :=
  ⟨"openai", "OpenAI", true, some "sk-test", some "https://api.openai.com/v1", []⟩

/-- Enabled Anthropic provider configuration used in concrete instances. -/
def cfgAnthropicDemo : ProviderConfig :=
  ⟨"anthropic", "Anthropic Claude", true, some "ak-test", some "https://api.anthropic.com/v1", []⟩

/-- Enabled custom provider configuration used in concrete instances. -/
def cfgCustomDemo : ProviderConfig :=
  ⟨"acme-1", "Acme", true, some "key-1", some "https://acme.example/v1", []⟩

/-- The lexicographic by-provider-then-name ordering the registry sort is
claimed to produce. -/
def modelLe (a b : ModelOption) : Prop :=
  a.providerName < b.providerName ∨ (a.providerName = b.providerName ∧ a.name ≤ b.name)

theorem foldl_append_singleton {α : Type} (l : List α) (acc : List α) :
    l.foldl (fun a x => a ++ [x]) acc = acc ++ l := by
  induction l generalizing acc with
  | nil => simp
  | cons x xs ih => simp [ih]

theorem sseCollect_append (cs : List String) (buf : String) (acc : List String) :
    (cs.foldl (sseChunkStep (fun a l => a ++ [l])) (buf, acc)).2
      = acc ++ (cs.foldl (sseChunkStep (fun a l => a ++ [l])) (buf, [])).2 := by
  induction cs generalizing buf acc with
  | nil => simp
  | cons c cs ih =>
    simp only [List.foldl_cons, sseChunkStep, foldl_append_singleton, List.nil_append]
    rw [ih, ih ((jsSplitOnChar newlineChar (buf ++ c)).getLastD "") ((jsSplitOnChar newlineChar (buf ++ c)).dropLast),
        List.append_assoc]

theorem sseFold_eq_lines_foldl {σ : Type} (pl : σ → String → σ) (cs : List String)
    (buf : String) (init : σ) :
    (cs.foldl (sseChunkStep pl) (buf, init)).2
      = ((cs.foldl (sseChunkStep (fun a l => a ++ [l])) (buf, [])).2).foldl pl init := by
  induction cs generalizing buf init with
  | nil => simp
  | cons c cs ih =>
    simp only [List.foldl_cons, sseChunkStep, foldl_append_singleton, List.nil_append]
    rw [ih]
    rw [sseCollect_append cs ((jsSplitOnChar newlineChar (buf ++ c)).getLastD "")
          ((jsSplitOnChar newlineChar (buf ++ c)).dropLast)]
    rw [List.foldl_append]

theorem sseFold_eq {σ : Type} (pl : σ → String → σ) (init : σ) (chunks : List String) :
    sseFold pl init chunks = (sseLines chunks).foldl pl init := by
  unfold sseFold sseLines
  exact sseFold_eq_lines_foldl pl chunks "" init

theorem lineFold_spec {U E : Type} (pl : (Option U × List E) → String → (Option U × List E))
    (ustep : Option U → String → Option U) (dOf : String → Option E)
    (h : ∀ u evs line, pl (u, evs) line = (ustep u line, evs ++ (dOf line).toList)) :
    ∀ (lines : List String) (u : Option U) (evs : List E),
      lines.foldl pl (u, evs) = (lines.foldl ustep u, evs ++ lines.filterMap dOf) := by
  intro lines
  induction lines with
  | nil => intro u evs; simp
  | cons l ls ih =>
    intro u evs
    simp only [List.foldl_cons, h]
    rw [ih]
    cases hd : dOf l <;> simp [List.filterMap_cons, hd]

theorem openAIProcessLine_spec (parse : String → Option OpenAIFrame)
    (u : Option UsageMetadata) (evs : List (CbEvent UsageMetadata)) (line : String) :
    openAIProcessLine parse (u, evs) line
      = (openAIUsageStep parse u line,
         evs ++ ((openAIDeltaOf parse line).map CbEvent.part).toList) := by
  simp only [openAIProcessLine, openAIUsageStep, openAIDeltaOf]
  by_cases h1 : jsStartsWith line "data: "
  · simp only [h1, if_true]
    by_cases h2 : jsDrop line 6 == "[DONE]"
    · simp [h2]
    · simp only [h2, Bool.false_eq_true, if_false]
      cases hp : parse (jsDrop line 6) with
      | none => simp
      | some f =>
        cases hdel : f.delta with
        | none => cases hu : f.usage <;> simp [hdel, hu]
        | some t =>
          by_cases ht : t = ""
          · cases hu : f.usage <;> simp [hdel, hu, ht]
          · cases hu : f.usage <;> simp [hdel, hu, ht]
  · simp [h1]

theorem customProcessLine_spec (parse : String → Option CustomFrame)
    (u : Option CustomUsageMetadata) (evs : List (CbEvent CustomUsageMetadata)) (line : String) :
    customProcessLine parse (u, evs) line
      = (customUsageStep parse u line,
         evs ++ ((customDeltaOf parse line).map CbEvent.part).toList) := by
  simp only [customProcessLine, customUsageStep, customDeltaOf]
  by_cases h1 : jsStartsWith line "data: "
  · simp only [h1, if_true]
    by_cases h2 : jsDrop line 6 == "[DONE]"
    · simp [h2]
    · simp only [h2, Bool.false_eq_true, if_false]
      cases hp : parse (jsDrop line 6) with
      | none => simp
      | some f =>
        cases hdel : f.delta with
        | none => cases hu : f.usage <;> simp [hdel, hu]
        | some t =>
          by_cases ht : t = ""
          · cases hu : f.usage <;> simp [hdel, hu, ht]
          · cases hu : f.usage <;> simp [hdel, hu, ht]
  · simp [h1]

theorem anthropicProcessLine_spec (parse : String → Option AnthropicFrame)
    (u : Option UsageMetadata) (evs : List (CbEvent UsageMetadata)) (line : String) :
    anthropicProcessLine parse (u, evs) line
      = (anthropicUsageStep parse u line,
         evs ++ ((anthropicDeltaOf parse line).map CbEvent.part).toList) := by
  simp only [anthropicProcessLine, anthropicUsageStep, anthropicDeltaOf]
  by_cases h1 : jsStartsWith line "data: "
  · simp only [h1, if_true]
    cases hp : parse (jsDrop line 6) with
    | none => simp
    | some f =>
      by_cases hc1 : f.type == "content_block_delta" && optStrTruthy f.deltaText
      · simp [hc1]
      · simp only [hc1, Bool.false_eq_true, if_false]
        by_cases hc2 : f.type == "message_start" && f.messageUsageInput.isSome
        · simp [hc2]
        · simp only [hc2, Bool.false_eq_true, if_false]
          by_cases hc3 : f.type == "message_delta" && f.usageOutput.isSome
          · cases u <;> simp [hc3]
          · simp [hc3]
  · simp [h1]

theorem openAIBody_spec (parse : String → Option OpenAIFrame) (chunks : List String) :
    sseFold (openAIProcessLine parse)
        ((none : Option UsageMetadata), ([] : List (CbEvent UsageMetadata))) chunks
      = (openAIStreamUsage parse (sseLines chunks),
         (openAIStreamDeltas parse (sseLines chunks)).map CbEvent.part) := by
  rw [sseFold_eq]
  rw [lineFold_spec (openAIProcessLine parse) (openAIUsageStep parse)
        (fun line => (openAIDeltaOf parse line).map CbEvent.part)
        (fun u evs line => openAIProcessLine_spec parse u evs line)]
  simp [openAIStreamUsage, openAIStreamDeltas, List.map_filterMap]

theorem customBody_spec (parse : String → Option CustomFrame) (chunks : List String) :
    sseFold (customProcessLine parse)
        ((none : Option CustomUsageMetadata), ([] : List (CbEvent CustomUsageMetadata))) chunks
      = (customStreamUsage parse (sseLines chunks),
         (customStreamDeltas parse (sseLines chunks)).map CbEvent.part) := by
  rw [sseFold_eq]
  rw [lineFold_spec (customProcessLine parse) (customUsageStep parse)
        (fun line => (customDeltaOf parse line).map CbEvent.part)
        (fun u evs line => customProcessLine_spec parse u evs line)]
  simp [customStreamUsage, customStreamDeltas, List.map_filterMap]

theorem anthropicBody_spec (parse : String → Option AnthropicFrame) (chunks : List String) :
    sseFold (anthropicProcessLine parse)
        ((none : Option UsageMetadata), ([] : List (CbEvent UsageMetadata))) chunks
      = (anthropicStreamUsage parse (sseLines chunks),
         (anthropicStreamDeltas parse (sseLines chunks)).map CbEvent.part) := by
  rw [sseFold_eq]
  rw [lineFold_spec (anthropicProcessLine parse) (anthropicUsageStep parse)
        (fun line => (anthropicDeltaOf parse line).map CbEvent.part)
        (fun u evs line => anthropicProcessLine_spec parse u evs line)]
  simp [anthropicStreamUsage, anthropicStreamDeltas, List.map_filterMap]

theorem completeCount_map_part {υ : Type} (ts : List String) :
    completeCount ((ts.map CbEvent.part) : List (CbEvent υ)) = 0 := by
  simp [completeCount, List.countP_eq_zero]

theorem errorCount_map_part {υ : Type} (ts : List String) :
    errorCount ((ts.map CbEvent.part) : List (CbEvent υ)) = 0 := by
  simp [errorCount, List.countP_eq_zero]

theorem completeCount_append {υ : Type} (a b : List (CbEvent υ)) :
    completeCount (a ++ b) = completeCount a + completeCount b := by
  simp [completeCount, List.countP_append]

theorem errorCount_append {υ : Type} (a b : List (CbEvent υ)) :
    errorCount (a ++ b) = errorCount a + errorCount b := by
  simp [errorCount, List.countP_append]

theorem getLastD_append_singleton {α : Type} (l : List α) (x d : α) :
    (l ++ [x]).getLastD d = x := by
  induction l with
  | nil => rfl
  | cons a l ih =>
    cases l with
    | nil => rfl
    | cons b l => simpa using ih

theorem counts_body_ending {υ : Type} (ts : List String) (u : Option υ)
    (ending : StreamEnding) :
    completeCount (ts.map CbEvent.part ++ endingEvents u ending)
      + errorCount (ts.map CbEvent.part ++ endingEvents u ending) = 1 := by
  cases ending <;>
    (simp only [endingEvents, completeCount_append, errorCount_append,
       completeCount_map_part, errorCount_map_part]
     simp [completeCount, errorCount])

theorem abort_trace_stats {υ : Type} (ts : List String) (u : Option υ) :
    completeCount (ts.map CbEvent.part ++ endingEvents u StreamEnding.abortedRead) = 0 ∧
    errorCount (ts.map CbEvent.part ++ endingEvents u StreamEnding.abortedRead) = 1 ∧
    (ts.map CbEvent.part ++ endingEvents u StreamEnding.abortedRead).getLastD (CbEvent.part "")
      = CbEvent.error ErrKind.abortError := by
  refine ⟨?_, ?_, ?_⟩
  · simp only [endingEvents, completeCount_append, completeCount_map_part]
    simp [completeCount]
  · simp only [endingEvents, errorCount_append, errorCount_map_part]
    simp [errorCount]
  · simp [endingEvents, getLastD_append_singleton]

/-- C1: for every streaming call on the OpenAI, Anthropic, or Custom
adapter (with a usable API key) whose network interaction ends in natural
completion or in a failure (network error, non-2xx status, missing body
reader, failed read) rather than a cancellation, the recorded callback
trace contains exactly one onComplete or onError invocation in total: one of
the two fires, it fires exactly once, and never both fire. -/
theorem C1_stream_completes_or_errors_exactly_once :
    ∀ (key : Option String) (outcome : FetchOutcome),
      optStrTruthy key = true → nonAbortOutcome outcome = true →
      (∀ (parse : String → Option OpenAIFrame),
        (openAISendMessageStream key parse outcome).map
          (fun evs => completeCount evs + errorCount evs) = some 1) ∧
      (∀ (parse : String → Option AnthropicFrame),
        (anthropicSendMessageStream key parse outcome).map
          (fun evs => completeCount evs + errorCount evs) = some 1) ∧
      (∀ (parse : String → Option CustomFrame),
        (customSendMessageStream key parse outcome).map
          (fun evs => completeCount evs + errorCount evs) = some 1) := by
  intro key outcome hk hna
  refine ⟨fun parse => ?_, fun parse => ?_, fun parse => ?_⟩
  · unfold openAISendMessageStream
    rw [hk]
    cases outcome with
    | netError => simp [completeCount, errorCount]
    | abortedFetch => simp [completeCount, errorCount]
    | httpError s => simp [completeCount, errorCount]
    | noBody => simp [completeCount, errorCount]
    | ok chunks ending =>
      simp only [Bool.not_true, Bool.false_eq_true, if_false, openAIBody_spec,
        Option.map_some']
      rw [counts_body_ending]
  · unfold anthropicSendMessageStream
    rw [hk]
    cases outcome with
    | netError => simp [completeCount, errorCount]
    | abortedFetch => simp [completeCount, errorCount]
    | httpError s => simp [completeCount, errorCount]
    | noBody => simp [completeCount, errorCount]
    | ok chunks ending =>
      simp only [Bool.not_true, Bool.false_eq_true, if_false, anthropicBody_spec,
        Option.map_some']
      rw [counts_body_ending]
  · unfold customSendMessageStream
    rw [hk]
    cases outcome with
    | netError => simp [completeCount, errorCount]
    | abortedFetch => simp [completeCount, errorCount]
    | httpError s => simp [completeCount, errorCount]
    | noBody => simp [completeCount, errorCount]
    | ok chunks ending =>
      simp only [Bool.not_true, Bool.false_eq_true, if_false, customBody_spec,
        Option.map_some']
      rw [counts_body_ending]

/-- Witness for C1 at a concrete input: a usable key, a natural-completion
outcome, and a concrete parse oracle. -/
theorem C1_stream_completes_or_errors_exactly_once_witness :
    optStrTruthy (some "sk-test") = true ∧
    nonAbortOutcome (FetchOutcome.ok [oaiC3Chunk] StreamEnding.done) = true ∧
    (openAISendMessageStream (some "sk-test") oaiDemoParse
        (FetchOutcome.ok [oaiC3Chunk] StreamEnding.done)).map
      (fun evs => completeCount evs + errorCount evs) = some 1 :=
  ⟨by decide, by decide,
   (C1_stream_completes_or_errors_exactly_once (some "sk-test")
      (FetchOutcome.ok [oaiC3Chunk] StreamEnding.done) (by decide) (by decide)).1
     oaiDemoParse⟩

/-- C2 counterexample: on the OpenAI adapter with a usable key, a
cancellation that aborts the in-flight fetch produces an onError invocation
(the abort rejection reaches the shared catch block), so it is false that
neither callback fires after cancellation. -/
theorem C2_cancellation_counterexample :
    openAISendMessageStream (some "sk-test") noOpenAIFrameParse FetchOutcome.abortedFetch
      = some [CbEvent.error ErrKind.abortError] := by decide

/-- C2 (amended): when the caller-supplied cancellation signal is triggered
while the request is in flight, the network operation aborts (the signal is
handed to fetch), but the resulting abort rejection is delivered through the
shared catch block: onError fires exactly once, carrying the abort error as
the final callback, and onComplete never fires. -/
theorem C2_cancellation_surfaces_through_onError :
    ∀ (key : Option String) (chunks : List String) (outcome : FetchOutcome),
      optStrTruthy key = true →
      (outcome = FetchOutcome.abortedFetch ∨
       outcome = FetchOutcome.ok chunks StreamEnding.abortedRead) →
      (∀ (parse : String → Option OpenAIFrame),
        (openAISendMessageStream key parse outcome).map
          (fun evs => (completeCount evs, errorCount evs, evs.getLastD (CbEvent.part "")))
          = some (0, 1, CbEvent.error ErrKind.abortError)) ∧
      (∀ (parse : String → Option AnthropicFrame),
        (anthropicSendMessageStream key parse outcome).map
          (fun evs => (completeCount evs, errorCount evs, evs.getLastD (CbEvent.part "")))
          = some (0, 1, CbEvent.error ErrKind.abortError)) ∧
      (∀ (parse : String → Option CustomFrame),
        (customSendMessageStream key parse outcome).map
          (fun evs => (completeCount evs, errorCount evs, evs.getLastD (CbEvent.part "")))
          = some (0, 1, CbEvent.error ErrKind.abortError)) := by
  intro key chunks outcome hk hout
  refine ⟨fun parse => ?_, fun parse => ?_, fun parse => ?_⟩
  · unfold openAISendMessageStream
    rw [hk]
    rcases hout with rfl | rfl
    · simp [completeCount, errorCount]
    · simp only [Bool.not_true, Bool.false_eq_true, if_false, openAIBody_spec,
        Option.map_some']
      rw [(abort_trace_stats _ _).1, (abort_trace_stats _ _).2.1,
          (abort_trace_stats _ _).2.2]
  · unfold anthropicSendMessageStream
    rw [hk]
    rcases hout with rfl | rfl
    · simp [completeCount, errorCount]
    · simp only [Bool.not_true, Bool.false_eq_true, if_false, anthropicBody_spec,
        Option.map_some']
      rw [(abort_trace_stats _ _).1, (abort_trace_stats _ _).2.1,
          (abort_trace_stats _ _).2.2]
  · unfold customSendMessageStream
    rw [hk]
    rcases hout with rfl | rfl
    · simp [completeCount, errorCount]
    · simp only [Bool.not_true, Bool.false_eq_true, if_false, customBody_spec,
        Option.map_some']
      rw [(abort_trace_stats _ _).1, (abort_trace_stats _ _).2.1,
          (abort_trace_stats _ _).2.2]

/-- Witness for the amended C2 at a concrete input. -/
theorem C2_cancellation_surfaces_through_onError_witness :
    optStrTruthy (some "sk-test") = true ∧
    (openAISendMessageStream (some "sk-test") noOpenAIFrameParse FetchOutcome.abortedFetch).map
      (fun evs => (completeCount evs, errorCount evs, evs.getLastD (CbEvent.part "")))
      = some (0, 1, CbEvent.error ErrKind.abortError) :=
  ⟨by decide,
   (C2_cancellation_surfaces_through_onError (some "sk-test") [] FetchOutcome.abortedFetch
      (by decide) (Or.inl rfl)).1 noOpenAIFrameParse⟩

/-- C3: for every stream input on any of the three SSE adapters in which
some data-prefixed line carries a payload that fails to parse, the malformed
line is skipped without aborting the stream: the trace is exactly the text
deltas of the well-formed frames, as onPart invocations in arrival order,
followed by a single onComplete at natural stream end. -/
theorem C3_malformed_line_skipped_stream_continues :
    ∀ (key : Option String) (chunks : List String),
      optStrTruthy key = true →
      (∀ (parse : String → Option OpenAIFrame),
        (∃ line ∈ sseLines chunks,
          jsStartsWith line "data: " = true ∧ parse (jsDrop line 6) = none) →
        openAISendMessageStream key parse (FetchOutcome.ok chunks StreamEnding.done)
          = some ((openAIStreamDeltas parse (sseLines chunks)).map CbEvent.part
              ++ [CbEvent.complete (openAIStreamUsage parse (sseLines chunks))])) ∧
      (∀ (parse : String → Option AnthropicFrame),
        (∃ line ∈ sseLines chunks,
          jsStartsWith line "data: " = true ∧ parse (jsDrop line 6) = none) →
        anthropicSendMessageStream key parse (FetchOutcome.ok chunks StreamEnding.done)
          = some ((anthropicStreamDeltas parse (sseLines chunks)).map CbEvent.part
              ++ [CbEvent.complete (anthropicStreamUsage parse (sseLines chunks))])) ∧
      (∀ (parse : String → Option CustomFrame),
        (∃ line ∈ sseLines chunks,
          jsStartsWith line "data: " = true ∧ parse (jsDrop line 6) = none) →
        customSendMessageStream key parse (FetchOutcome.ok chunks StreamEnding.done)
          = some ((customStreamDeltas parse (sseLines chunks)).map CbEvent.part
              ++ [CbEvent.complete (customStreamUsage parse (sseLines chunks))])) := by
  intro key chunks hk
  refine ⟨fun parse _ => ?_, fun parse _ => ?_, fun parse _ => ?_⟩
  · unfold openAISendMessageStream
    rw [hk]
    simp [openAIBody_spec, endingEvents]
  · unfold anthropicSendMessageStream
    rw [hk]
    simp [anthropicBody_spec, endingEvents]
  · unfold customSendMessageStream
    rw [hk]
    simp [customBody_spec, endingEvents]

/-- Witness for C3 at a concrete input whose middle data line is
malformed. -/
theorem C3_malformed_line_skipped_stream_continues_witness :
    optStrTruthy (some "sk-test") = true ∧
    (∃ line ∈ sseLines [oaiC3Chunk],
      jsStartsWith line "data: " = true ∧ oaiDemoParse (jsDrop line 6) = none) ∧
    openAISendMessageStream (some "sk-test") oaiDemoParse
        (FetchOutcome.ok [oaiC3Chunk] StreamEnding.done)
      = some ((openAIStreamDeltas oaiDemoParse (sseLines [oaiC3Chunk])).map CbEvent.part
          ++ [CbEvent.complete (openAIStreamUsage oaiDemoParse (sseLines [oaiC3Chunk]))]) :=
  ⟨by decide, by decide,
   (C3_malformed_line_skipped_stream_continues (some "sk-test") [oaiC3Chunk]
      (by decide)).1 oaiDemoParse (by decide)⟩

/-- C4: the Anthropic adapter carries the prompt-token count of
message_start forward and sums it with the output-token count of the
terminal message_delta: the scenario stream delivering message_start with
input_tokens 10, a content_block_delta with text Hi, and a message_delta
with output_tokens 3 before natural stream end yields exactly one
onPart with text Hi and one onComplete with usage 10, 3, 13. -/
theorem C4_anthropic_usage_carried_and_summed :
    anthropicSendMessageStream (some "ak-test") anthScenarioParse
        (FetchOutcome.ok [anthScenarioChunk] StreamEnding.done)
      = some [CbEvent.part "Hi",
              CbEvent.complete (some ⟨10, 3, 13⟩)] := by decide

/-- C5: in the legacy Gemini-only listing path, with the custom API config
enabled and a proxy URL set, a proxy exception makes the call reject with
the proxy failure; the direct SDK branch is unreachable (the result does not
depend on the SDK oracle at all). -/
theorem C5_proxy_failure_is_fatal :
    ∀ (apiKeysString : Option String) (settings : LegacySettings) (msg : String)
      (sdkResult : Except String (List GeminiModelInfo)),
      parseApiKeys apiKeysString ≠ [] →
      settings.useCustomApiConfig = true →
      optStrTruthy settings.apiProxyUrl = true →
      getLegacyGeminiModels apiKeysString settings (Except.error msg) sdkResult
        = Except.error (LegacyError.proxyFailed msg) := by
  intro ks st msg sdk hk hc hp
  unfold getLegacyGeminiModels
  have hlen : ¬((parseApiKeys ks).length = 0) := by
    simpa [List.length_eq_zero] using hk
  simp [hlen, hc, hp]

/-- Witness for C5 at a concrete input: the SDK oracle would succeed, yet
the proxy error is what the call rejects with. -/
theorem C5_proxy_failure_is_fatal_witness :
    parseApiKeys (some "k1") ≠ [] ∧
    getLegacyGeminiModels (some "k1") ⟨true, some "https-proxy"⟩ (Except.error "boom")
        (Except.ok []) = Except.error (LegacyError.proxyFailed "boom") :=
  ⟨by decide,
   C5_proxy_failure_is_fatal (some "k1") ⟨true, some "https-proxy"⟩ "boom"
     (Except.ok []) (by decide) rfl (by decide)⟩

theorem localeCompare_le_zero_iff (a b : String) : localeCompare a b ≤ 0 ↔ a ≤ b := by
  unfold localeCompare
  rcases lt_trichotomy a b with h | h | h
  · rw [if_pos h]
    exact iff_of_true (by decide) (le_of_lt h)
  · rw [if_neg (by rw [h]; exact lt_irrefl b), if_neg (by rw [h]; exact lt_irrefl b)]
    exact iff_of_true (by decide) (le_of_eq h)
  · rw [if_neg (asymm h), if_pos h]
    exact iff_of_false (by decide) (not_le_of_gt h)

theorem localeCompare_eq_zero_iff (a b : String) : localeCompare a b = 0 ↔ a = b := by
  unfold localeCompare
  rcases lt_trichotomy a b with h | h | h
  · rw [if_pos h]
    exact iff_of_false (by decide) (ne_of_lt h)
  · rw [if_neg (by rw [h]; exact lt_irrefl b), if_neg (by rw [h]; exact lt_irrefl b)]
    exact iff_of_true rfl h
  · rw [if_neg (asymm h), if_pos h]
    exact iff_of_false (by decide) (ne_of_gt h)

theorem localeCompare_lt_zero_iff (a b : String) : localeCompare a b < 0 ↔ a < b := by
  unfold localeCompare
  rcases lt_trichotomy a b with h | h | h
  · rw [if_pos h]
    exact iff_of_true (by decide) h
  · rw [if_neg (by rw [h]; exact lt_irrefl b), if_neg (by rw [h]; exact lt_irrefl b)]
    exact iff_of_false (by decide) (by rw [h]; exact lt_irrefl b)
  · rw [if_neg (asymm h), if_pos h]
    exact iff_of_false (by decide) (asymm h)

theorem modelCompareLe_iff (a b : ModelOption) :
    modelCompareLe a b = true ↔ modelLe a b := by
  unfold modelCompareLe modelCompare modelLe
  simp only [decide_eq_true_eq]
  by_cases h : localeCompare a.providerName b.providerName ≠ 0
  · rw [if_pos h]
    have he : ¬(a.providerName = b.providerName) := fun hh =>
      h ((localeCompare_eq_zero_iff _ _).mpr hh)
    constructor
    · intro hle
      exact Or.inl ((localeCompare_lt_zero_iff _ _).mp (lt_of_le_of_ne hle h))
    · rintro (hx | ⟨hx, -⟩)
      · exact le_of_lt ((localeCompare_lt_zero_iff _ _).mpr hx)
      · exact absurd hx he
  · rw [if_neg h]
    push_neg at h
    have he : a.providerName = b.providerName := (localeCompare_eq_zero_iff _ _).mp h
    rw [localeCompare_le_zero_iff]
    constructor
    · intro hn; exact Or.inr ⟨he, hn⟩
    · rintro (hx | ⟨-, hx⟩)
      · exact absurd he (ne_of_lt hx)
      · exact hx

theorem modelCompareLe_trans :
    ∀ (a b c : ModelOption), modelCompareLe a b = true → modelCompareLe b c = true →
      modelCompareLe a c = true := by
  intro a b c hab hbc
  rw [modelCompareLe_iff] at hab hbc ⊢
  rcases hab with h1 | ⟨e1, h1⟩
  · rcases hbc with h2 | ⟨e2, h2⟩
    · exact Or.inl (lt_trans h1 h2)
    · exact Or.inl (by rw [← e2]; exact h1)
  · rcases hbc with h2 | ⟨e2, h2⟩
    · exact Or.inl (by rw [e1]; exact h2)
    · exact Or.inr ⟨e1.trans e2, le_trans h1 h2⟩

theorem modelCompareLe_total :
    ∀ (a b : ModelOption), (modelCompareLe a b || modelCompareLe b a) = true := by
  intro a b
  rw [Bool.or_eq_true, modelCompareLe_iff, modelCompareLe_iff]
  unfold modelLe
  rcases lt_trichotomy a.providerName b.providerName with h | h | h
  · exact Or.inl (Or.inl h)
  · rcases le_total a.name b.name with hn | hn
    · exact Or.inl (Or.inr ⟨h, hn⟩)
    · exact Or.inr (Or.inr ⟨h.symm, hn⟩)
  · exact Or.inr (Or.inl h)

/-- C6: for every registry state, listing oracle and config list, the
aggregated model list returned by getAllAvailableModels is sorted ascending
by provider display name and then by model display name (lexicographic,
case preserved), and is a permutation of the aggregation it sorts; as a pure
function of its inputs the result is deterministic for a fixed input set. -/
theorem C6_models_sorted_by_provider_then_name :
    ∀ (reg : List String) (listing : ProviderConfig → Except Unit (List ModelOption))
      (configs : List ProviderConfig),
      List.Sorted modelLe (getAllAvailableModels reg listing configs) ∧
      (getAllAvailableModels reg listing configs).Perm
        (aggregateModels reg listing configs) := by
  intro reg listing configs
  unfold getAllAvailableModels
  refine ⟨?_, List.mergeSort_perm (aggregateModels reg listing configs) modelCompareLe⟩
  have hs := List.sorted_mergeSort modelCompareLe_trans modelCompareLe_total
    (aggregateModels reg listing configs)
  exact hs.imp (fun h => (modelCompareLe_iff _ _).mp h)

theorem claude_opus_pattern (pid : String) :
    isModelFromProvider "claude-3-opus-20240229" pid = true ↔ pid = "anthropic" := by
  unfold isModelFromProvider
  by_cases h1 : pid = "gemini"
  · subst h1; decide
  · by_cases h2 : pid = "openai"
    · subst h2; decide
    · by_cases h3 : pid = "anthropic"
      · subst h3; decide
      · simp [h1, h2, h3]

/-- C7: model routing resolves by pattern before list order: whenever an
enabled Anthropic config with a registered adapter is anywhere in the list,
the claude-3-opus-20240229 id resolves to the Anthropic adapter and config
even when other enabled providers precede it; when no per-provider pattern
matches, the first enabled config with a registered adapter is returned in
config-list order; and the result is none exactly when no enabled config has
a registered adapter. -/
theorem C7_pattern_match_precedes_list_order :
    (∀ (reg : List String) (configs : List ProviderConfig) (c : ProviderConfig),
      c ∈ configs → c.id = "anthropic" → c.enabled = true →
      reg.contains "anthropic" = true →
      ∃ c2 : ProviderConfig,
        getProviderForModel reg "claude-3-opus-20240229" configs
          = some ("anthropic", c2) ∧ c2.id = "anthropic" ∧ c2.enabled = true) ∧
    (∀ (reg : List String) (modelId : String) (configs : List ProviderConfig),
      (∀ c ∈ configs, ¬(c.enabled = true ∧ reg.contains c.id = true ∧
         isModelFromProvider modelId c.id = true)) →
      getProviderForModel reg modelId configs
        = (configs.find? (fun c => c.enabled && reg.contains c.id)).map
            (fun c => (c.id, c))) ∧
    (∀ (reg : List String) (modelId : String) (configs : List ProviderConfig),
      getProviderForModel reg modelId configs = none ↔
        ∀ c ∈ configs, ¬(c.enabled = true ∧ reg.contains c.id = true)) := by
  refine ⟨?_, ?_, ?_⟩
  · intro reg configs c hmem hid hen hreg
    have hp : (fun c => c.enabled && reg.contains c.id &&
        isModelFromProvider "claude-3-opus-20240229" c.id) c = true := by
      simp only [hid, hen, hreg, (claude_opus_pattern "anthropic").mpr rfl,
        Bool.and_self]
    have hsome : (configs.find? (fun c => c.enabled && reg.contains c.id &&
        isModelFromProvider "claude-3-opus-20240229" c.id)).isSome = true :=
      List.find?_isSome.mpr ⟨c, hmem, hp⟩
    obtain ⟨c2, hf⟩ := Option.isSome_iff_exists.mp hsome
    have hp2 := List.find?_some hf
    simp only [Bool.and_eq_true] at hp2
    obtain ⟨⟨hen2, hreg2⟩, h3⟩ := hp2
    have hids : c2.id = "anthropic" := (claude_opus_pattern c2.id).mp h3
    refine ⟨c2, ?_, hids, hen2⟩
    unfold getProviderForModel
    rw [hf]
    simp [hids]
  · intro reg modelId configs hno
    unfold getProviderForModel
    have h1 : configs.find? (fun c => c.enabled && reg.contains c.id &&
        isModelFromProvider modelId c.id) = none := by
      rw [List.find?_eq_none]
      intro c hc hcontra
      simp only [Bool.and_eq_true] at hcontra
      obtain ⟨⟨he, hr⟩, h3⟩ := hcontra
      exact hno c hc ⟨he, hr, h3⟩
    rw [h1]
    cases hf2 : configs.find? (fun c => c.enabled && reg.contains c.id) <;> simp
  · intro reg modelId configs
    constructor
    · intro hres c hc hcontra
      rcases hcontra with ⟨he, hr⟩
      unfold getProviderForModel at hres
      cases hf1 : configs.find? (fun c => c.enabled && reg.contains c.id &&
          isModelFromProvider modelId c.id) with
      | some c1 => rw [hf1] at hres; simp at hres
      | none =>
        rw [hf1] at hres
        cases hf2 : configs.find? (fun c => c.enabled && reg.contains c.id) with
        | some c2 => rw [hf2] at hres; simp at hres
        | none =>
          have := List.find?_eq_none.mp hf2 c hc
          exact this (by rw [he, hr]; decide)
    · intro hall
      unfold getProviderForModel
      have h1 : configs.find? (fun c => c.enabled && reg.contains c.id &&
          isModelFromProvider modelId c.id) = none := by
        rw [List.find?_eq_none]
        intro c hc hcontra
        simp only [Bool.and_eq_true] at hcontra
        exact hall c hc ⟨hcontra.1.1, hcontra.1.2⟩
      have h2 : configs.find? (fun c => c.enabled && reg.contains c.id) = none := by
        rw [List.find?_eq_none]
        intro c hc hcontra
        simp only [Bool.and_eq_true] at hcontra
        exact hall c hc hcontra
      rw [h1, h2]

/-- Witness for C7 at a concrete input: Anthropic listed after an enabled
OpenAI config still wins the claude model id by pattern. -/
theorem C7_pattern_match_precedes_list_order_witness :
    cfgAnthropicDemo ∈ [cfgOpenAIDemo, cfgAnthropicDemo] ∧
    ∃ c2 : ProviderConfig,
      getProviderForModel builtinRegistry "claude-3-opus-20240229"
          [cfgOpenAIDemo, cfgAnthropicDemo] = some ("anthropic", c2) ∧
      c2.id = "anthropic" ∧ c2.enabled = true :=
  ⟨by decide,
   C7_pattern_match_precedes_list_order.1 builtinRegistry
     [cfgOpenAIDemo, cfgAnthropicDemo] cfgAnthropicDemo (by decide) rfl rfl (by decide)⟩

/-- C8: converting the single-text-part user history with an empty system
instruction yields exactly one user message with a bare string content; in
general a history item with exactly one truthy text part gets a bare string
content rather than a one-element array, and a blank system instruction
emits no system message. -/
theorem C8_single_text_part_bare_string :
    convertHistoryToOpenAI [⟨"user", [⟨some "hi", none⟩]⟩] ""
      = [⟨"user", OAContent.str "hi"⟩] ∧
    (∀ (role t : String), t ≠ "" →
      (convertOpenAIItem ⟨role, [⟨some t, none⟩]⟩).content = OAContent.str t) ∧
    (∀ (history : List ChatHistoryItem) (s : String), jsTrim s = "" →
      convertHistoryToOpenAI history s = history.map convertOpenAIItem) := by
  refine ⟨by decide, ?_, ?_⟩
  · intro role t ht
    simp [convertOpenAIItem, openAIContentItemOf, optStrTruthy, ht,
      List.filterMap_cons, List.filterMap_nil]
  · intro history s hs
    unfold convertHistoryToOpenAI
    rw [hs]
    simp

/-- Witness for C8 at a concrete nonempty text. -/
theorem C8_single_text_part_bare_string_witness :
    ("hello" : String) ≠ "" ∧
    (convertOpenAIItem ⟨"user", [⟨some "hello", none⟩]⟩).content
      = OAContent.str "hello" :=
  ⟨by decide, C8_single_text_part_bare_string.2.1 "user" "hello" (by decide)⟩

/-- C9: a history item whose parts are the text a followed by the inline
image png AAAA converts, on both the OpenAI and the Custom adapter, to an
array-valued content with the text entry first and the image_url entry
second carrying the base64 data URL, preserving part order. -/
theorem C9_mixed_content_order_preserved :
    ∀ (role : String),
      (convertOpenAIItem
          ⟨role, [⟨some "a", none⟩, ⟨none, some ⟨"image/png", "AAAA"⟩⟩]⟩).content
        = OAContent.arr [OAContentItem.text "a",
            OAContentItem.imageUrl "data:image/png;base64,AAAA"] ∧
      (convertCustomItem
          ⟨role, [⟨some "a", none⟩, ⟨none, some ⟨"image/png", "AAAA"⟩⟩]⟩).content
        = OAContent.arr [OAContentItem.text "a",
            OAContentItem.imageUrl "data:image/png;base64,AAAA"] := by
  intro role
  exact ⟨rfl, rfl⟩

/-- C10: with a usable API key the custom-provider model listing never
rejects, and on any listing failure (a throwing fetch or a non-2xx
response) it resolves with the single default entry carrying the config id
and name. -/
theorem C10_custom_listing_resolves_with_default_on_failure :
    ∀ (config : ProviderConfig) (outcome : CustomListingOutcome),
      optStrTruthy config.apiKey = true →
      (∃ l, customGetAvailableModels config outcome = Except.ok l) ∧
      ((outcome = CustomListingOutcome.fetchThrows ∨
        outcome = CustomListingOutcome.respNotOk) →
        customGetAvailableModels config outcome
          = Except.ok [defaultCustomModel config]) := by
  intro config outcome hk
  unfold customGetAvailableModels
  rw [hk]
  refine ⟨⟨_, rfl⟩, ?_⟩
  rintro (rfl | rfl) <;> rfl

/-- Witness for C10 at a concrete config and a throwing fetch. -/
theorem C10_custom_listing_resolves_with_default_on_failure_witness :
    optStrTruthy cfgCustomDemo.apiKey = true ∧
    customGetAvailableModels cfgCustomDemo CustomListingOutcome.fetchThrows
      = Except.ok [defaultCustomModel cfgCustomDemo] :=
  ⟨by decide,
   (C10_custom_listing_resolves_with_default_on_failure cfgCustomDemo
      CustomListingOutcome.fetchThrows (by decide)).2 (Or.inl rfl)⟩

end AMC
